import Mathlib

/-!
Verification development for the pipeline repository.

The definitions below are a shallow embedding of the Python sources:

* `src/pipeline/objects/pipeline.py` — the tracing context (`Pipeline`):
  `__enter__`, `__exit__`, `output`, `add_variable`, `add_function`,
  `add_graph_node`.
* `src/pipeline/container/routes/v4/runs.py` — the serving boundary:
  `run`, `stream_run`, `_handle_pipeline_state_not_ready`,
  `_generate_run_result`, `_parse_run_outputs`, `_save_run_file`, and the
  inner generator `stream_func`.
* `src/pipeline/container/startup.py` — `lifespan` (one admission queue,
  exactly one consumer task).

Python exceptions are embedded as values of `PyExc` (class name plus
message); fallible operations return `Except PyExc _`.  Python lists are
Lean lists; object attribute mutation becomes functional record update.
Components of the repository that are not present under `src/` (the
`Graph`/`Variable` record layouts, the `runs` schema module, the
`execution_handler` consumer, and the `Paiplain` staged pipeline) are
modelled from the specification; each such definition carries a doc
comment saying so.
-/

namespace PipelineRepo

/-- A Python exception value: the exception class name and its message. -/
inductive PyExc where
  | exc (cls : String) (msg : String)
deriving DecidableEq, Repr

/-! ## Tracing context (src/pipeline/objects/pipeline.py) -/

/-- Modelled from the spec: `Variable` (src/pipeline/objects/variable.py is
not under src/).  Per spec §3 a Variable carries a unique identifier and the
flags `is_input`/`is_output`; equality of the embedded record plays the role
of Python `==` used by `list.index` / `not in`. -/
structure Variable where
  local_id : String
  is_input : Bool
  is_output : Bool
deriving DecidableEq, Repr

/-- Modelled from the spec: `Graph` (src/pipeline/objects/graph.py is not
under src/).  Per spec §3 a Graph is a name with ordered lists of Variables,
Functions and Nodes plus the designated outputs; Functions and Nodes are
opaque tokens here since only their list structure is touched by
`pipeline.py`. -/
structure Graph where
  name : String
  vars : List Variable
  functions : List String
  nodes : List String
  outputs : List Variable
deriving DecidableEq, Repr

/-- The process-wide tracing state held in class attributes of `Pipeline`:
`defined_pipelines`, `_pipeline_context_active`, `_current_pipeline`. -/
structure TraceState where
  defined_pipelines : List (String × Graph)
  pipeline_context_active : Bool
  current_pipeline : Option Graph
deriving DecidableEq, Repr

/-- `Pipeline.__enter__` (pipeline.py lines 17-22): unconditionally sets the
active flag and replaces `_current_pipeline` with a fresh empty `Graph`.
The result is wrapped in `Except` so that "fails with `ContextError`" is a
statable property; note the source performs no check of
`_pipeline_context_active`. -/
def Pipeline.enter (s : TraceState) (name : String) : Except PyExc TraceState :=
  .ok { s with
          pipeline_context_active := true,
          current_pipeline := some { name := name, vars := [], functions := [],
                                     nodes := [], outputs := [] } }

/-- `Pipeline.__exit__` (pipeline.py lines 24-29): registers the current
graph under its name and clears the context. -/
def Pipeline.exitContext (s : TraceState) : Except PyExc TraceState :=
  match s.current_pipeline with
  | none => .error (PyExc.exc "AttributeError" "NoneType object has no attribute name")
  | some g =>
      .ok { defined_pipelines := s.defined_pipelines ++ [(g.name, g)],
            pipeline_context_active := false,
            current_pipeline := none }

/-- `Pipeline.add_variable` (pipeline.py lines 52-59): when the context is
active, appends the variable to the current graph unless already present
(Python `not in`, i.e. `==`-membership); otherwise raises the plain built-in
`Exception` seen in the source. -/
def Pipeline.add_variable (s : TraceState) (v : Variable) : Except PyExc TraceState :=
  if s.pipeline_context_active then
    match s.current_pipeline with
    | none => .error (PyExc.exc "AttributeError" "NoneType object has no attribute variables")
    | some g =>
        if v ∈ g.vars then .ok s
        else .ok { s with current_pipeline := some { g with vars := g.vars ++ [v] } }
  else
    .error (PyExc.exc "Exception" "Cant add a variable when not defining a pipeline!")

/-- `Pipeline.add_function` (pipeline.py lines 61-66). -/
def Pipeline.add_function (s : TraceState) (f : String) : Except PyExc TraceState :=
  if s.pipeline_context_active then
    match s.current_pipeline with
    | none => .error (PyExc.exc "AttributeError" "NoneType object has no attribute functions")
    | some g =>
        .ok { s with current_pipeline := some { g with functions := g.functions ++ [f] } }
  else
    .error (PyExc.exc "Exception" "Cant add a function when not defining a pipeline!")

/-- `Pipeline.add_graph_node` (pipeline.py lines 68-73). -/
def Pipeline.add_graph_node (s : TraceState) (n : String) : Except PyExc TraceState :=
  if s.pipeline_context_active then
    match s.current_pipeline with
    | none => .error (PyExc.exc "AttributeError" "NoneType object has no attribute nodes")
    | some g =>
        .ok { s with current_pipeline := some { g with nodes := g.nodes ++ [n] } }
  else
    .error (PyExc.exc "Exception" "Cant add a node when not defining a pipeline!")

/-- Python `list.index(x)`: index of the first element equal to `x`, raising
`ValueError` when no element matches (it never returns -1). -/
def pyIndex (l : List Variable) (x : Variable) : Except PyExc Nat :=
  match l with
  | [] => .error (PyExc.exc "ValueError" "x is not in list")
  | y :: rest => if y = x then .ok 0 else (pyIndex rest x).map (· + 1)

/-- The trailing loop of `Pipeline.output` (pipeline.py lines 40-43): flag
`is_output` on the first variable whose `local_id` matches. -/
def setFirstByLocalId (l : List Variable) (lid : String) : List Variable :=
  match l with
  | [] => []
  | v :: rest =>
      if v.local_id = lid then { v with is_output := true } :: rest
      else v :: setFirstByLocalId rest lid

/-- The body of `Pipeline.output` (pipeline.py lines 31-43) for one variable:
`variable_index = variables.index(_output)` (raising `ValueError` when the
variable is absent — the `!= -1` guard in the source is dead code since
`list.index` never returns -1), flag `is_output` at that index, append the
flagged variable to `outputs`, then run the `local_id` loop. -/
def Pipeline.markOutput (g : Graph) (v : Variable) : Except PyExc Graph :=
  match pyIndex g.vars v with
  | .error e => .error e
  | .ok i =>
      match g.vars.get? i with
      | none => .error (PyExc.exc "IndexError" "list index out of range")
      | some w =>
          let w' : Variable := { w with is_output := true }
          let vars1 := g.vars.set i w'
          .ok { g with
                  vars := setFirstByLocalId vars1 v.local_id,
                  outputs := g.outputs ++ [w'] }

/-! ## Run result protocol (src/pipeline/container/routes/v4/runs.py) -/

/-- Modelled from the spec: the output kind enum `RunIOType` of the
`pipeline.cloud.schemas.runs` module, which is not under src/.  Per spec §6
the type is one of scalar, array, mapping, file, stream, opaque-serialized
(`pkl` in the source's usage), selected by inspecting the produced value's
runtime shape. -/
inductive RunIOType where
  | scalar
  | array
  | mapping
  | file
  | stream
  | pkl
deriving DecidableEq, Repr

/-- A Python runtime value as classified by the serving boundary: scalars
(numbers/strings/booleans collapsed to their repr), lists, mappings, file
objects (name and size), stream handles (the remaining values the iterator
will yield — `none` embeds a yielded Python `None` — plus whether the
backing iterable exposes an `end` signal), and opaque objects. -/
inductive PyObj where
  | scalarV (s : String)
  | listV (xs : List PyObj)
  | dictV (keys : List String) (vals : List PyObj)
  | fileV (name : String) (size : Int)
  | streamV (values : List (Option PyObj)) (hasEnd : Bool)
  | opaqueV (tag : String)

/-- Whether a value is a file object (`File` or `io.BufferedIOBase`). -/
def fileLike : PyObj → Bool
  | .fileV _ _ => true
  | _ => false

/-- Modelled from the spec: `RunIOType.from_object` of the runs schema
module (not under src/): per spec §6 the output type is selected by the
value's runtime shape.  A non-empty list of file objects is not
JSON-serializable, so it classifies as opaque (`pkl`), which is what makes
the caller's list-of-files branch in `_parse_run_outputs` reachable. -/
def RunIOType.from_object : PyObj → RunIOType
  | .scalarV _ => .scalar
  | .listV xs => if !xs.isEmpty && xs.all fileLike then .pkl else .array
  | .dictV _ _ => .mapping
  | .fileV _ _ => .file
  | .streamV _ _ => .stream
  | .opaqueV _ => .pkl

/-- The `RunOutputFile` schema: `{name, path, size, url}`. -/
structure RunOutputFile where
  name : String
  path : String
  size : Int
  url : Option String
deriving DecidableEq, Repr

/-- `_save_run_file` (runs.py lines 289-322) with the filesystem abstracted:
the file's bytes are copied under a per-run unique directory and the schema
records name, destination path and size.  The fresh UUID directory is
abstracted to a fixed prefix since no claim inspects the path. -/
def save_run_file (name : String) (size : Int) : RunOutputFile :=
  { name := name, path := "/tmp/run_files/" ++ name, size := size, url := none }

/-- A typed run output `{type, value|file}`.  `value` holds either a Python
value or — only in the list-of-files case of `_parse_run_outputs` — a list
of nested file outputs, hence the inductive rather than a structure. -/
inductive RunOutput where
  | mk (ty : RunIOType) (value : Option (PyObj ⊕ List RunOutput))
       (file : Option RunOutputFile)

/-- The `type` field of a `RunOutput`. -/
def RunOutput.type : RunOutput → RunIOType
  | .mk t _ _ => t

/-- The `value` field of a `RunOutput`. -/
def RunOutput.value : RunOutput → Option (PyObj ⊕ List RunOutput)
  | .mk _ v _ => v

/-- The `file` field of a `RunOutput`. -/
def RunOutput.file : RunOutput → Option RunOutputFile
  | .mk _ _ f => f

/-- One iteration of the loop body of `_parse_run_outputs` (runs.py lines
249-286): a single file is persisted and returned by reference; a list of
file objects (classified `pkl` by shape) is persisted element-wise and
wrapped as an `array` of file outputs; anything else is wrapped as a typed
output with its value inline.  The inner mapping's non-file branch is
unreachable under the all-file guard. -/
def parseOneOutput (o : PyObj) : RunOutput :=
  match o with
  | .fileV n sz => .mk .file none (some (save_run_file n sz))
  | .listV xs =>
      if RunIOType.from_object (.listV xs) = .pkl ∧ xs.all fileLike then
        .mk .array
          (some (.inr (xs.map (fun x =>
            match x with
            | .fileV n sz => .mk .file none (some (save_run_file n sz))
            | _ => .mk .pkl none none))))
          none
      else
        .mk (RunIOType.from_object (.listV xs)) (some (.inl (.listV xs))) none
  | _ => .mk (RunIOType.from_object o) (some (.inl o)) none

/-- `_parse_run_outputs` (runs.py lines 249-286). -/
def parse_run_outputs (outs : List PyObj) : List RunOutput :=
  outs.map parseOneOutput

/-- Modelled from the spec: the error kind enum `ContainerRunErrorType` of
the runs schema module (not under src/); the five kinds of spec §7. -/
inductive ContainerRunErrorType where
  | input_error
  | pipeline_error
  | unknown
  | pipeline_loading
  | startup_error
deriving DecidableEq, Repr

/-- The `ContainerRunError` schema: `{type, message, traceback}`. -/
structure ContainerRunError where
  type : ContainerRunErrorType
  message : String
  traceback : Option String

/-- The `ContainerRunResult` schema: `{outputs, inputs, error}`. -/
structure ContainerRunResult where
  outputs : Option (List RunOutput)
  inputs : Option (List PyObj)
  error : Option ContainerRunError

/-- The outcome delivered on a run's reply channel by the consumer: one of
the two typed executor exceptions (`RunInputException` carrying a message;
`RunnableError` carrying the repr of the original exception and the captured
traceback, per src/pipeline/exceptions usage in runs.py), any other
exception, or the executor's output list. -/
inductive RunOutcome where
  | inputException (message : String)
  | runnableError (excRepr : String) (tb : String)
  | otherException (message : String)
  | success (outputs : List PyObj)

/-- `_generate_run_result` (runs.py lines 197-246): maps the reply-channel
outcome to the response schema and HTTP status code. -/
def generate_run_result : RunOutcome → ContainerRunResult × Nat
  | .inputException msg =>
      ({ outputs := none, inputs := none,
         error := some { type := .input_error, message := msg, traceback := none } }, 400)
  | .runnableError excRepr tb =>
      ({ outputs := none, inputs := none,
         error := some { type := .pipeline_error, message := excRepr,
                         traceback := some tb } }, 200)
  | .otherException msg =>
      ({ outputs := none, inputs := none,
         error := some { type := .unknown, message := msg, traceback := none } }, 500)
  | .success outs =>
      ({ outputs := some (parse_run_outputs outs), inputs := none, error := none }, 200)

/-! ## Manager state and admission (runs.py, startup.py) -/

/-- Modelled from the spec: the `PipelineState` enum of the pipelines schema
module (not under src/); states per spec §4.3. -/
inductive PipelineState where
  | loading
  | ready
  | load_failed
  | startup_failed
deriving DecidableEq, Repr

/-- The Manager surface consumed by the serving boundary (spec §6):
`pipeline_state` and `pipeline_state_message`. -/
structure Manager where
  pipeline_state : PipelineState
  pipeline_state_message : Option String

/-- `_handle_pipeline_state_not_ready` (runs.py lines 157-194): the explicit
if-chain over the three non-ready states; falls through to `none` (Python
`None`) in the `ready` state. -/
def handle_pipeline_state_not_ready (m : Manager) : Option ContainerRunResult :=
  if m.pipeline_state = .loading then
    some { outputs := none, inputs := none,
           error := some { type := .pipeline_loading,
                           message := "Pipeline is still loading", traceback := none } }
  else if m.pipeline_state = .load_failed then
    some { outputs := none, inputs := none,
           error := some { type := .startup_error,
                           message := "Pipeline failed to load",
                           traceback := m.pipeline_state_message } }
  else if m.pipeline_state = .startup_failed then
    some { outputs := none, inputs := none,
           error := some { type := .startup_error,
                           message := "Pipeline failed to startup",
                           traceback := m.pipeline_state_message } }
  else
    none

/-- A run request `{run_id, inputs}` (`ContainerRunCreate`). -/
structure ContainerRunCreate where
  run_id : String
  req_inputs : List PyObj

/-- What the admission half of the `run` endpoint did with a request. -/
inductive RunAdmission where
  | rejected (result : ContainerRunResult)
  | enqueued

/-- The admission half of the `run` endpoint (runs.py lines 35-53): a
request against a non-ready Manager returns the rejection result
immediately and never touches the execution queue; otherwise the request is
placed at the back of the queue (`put_nowait`) and the caller suspends on
its private reply channel. -/
def runEndpoint (m : Manager) (queue : List ContainerRunCreate)
    (req : ContainerRunCreate) : RunAdmission × List ContainerRunCreate :=
  match handle_pipeline_state_not_ready m with
  | some result => (.rejected result, queue)
  | none => (.enqueued, queue ++ [req])

/-! ## Streaming (runs.py `stream_run` / `stream_func`) -/

/-- A typed output wrapping a freshly yielded stream value
(`RunOutput(type=RunIOType.from_object(next_value), value=next_value)`,
runs.py lines 116-122). -/
def mkValOut (x : PyObj) : RunOutput :=
  .mk (RunIOType.from_object x) (some (.inl x)) none

/-- A stream-typed output whose value is a stream handle with the given
remaining values and `end`-capability. -/
def mkStreamOut (hasEnd : Bool) (vals : List (Option PyObj)) : RunOutput :=
  .mk .stream (some (.inl (.streamV vals hasEnd))) none

/-- Termination measure contribution of one output: one plus the number of
values its stream has left (a non-stream output counts one). -/
def streamSize : RunOutput → Nat
  | .mk _ (some (.inl (.streamV vs _))) _ => 1 + vs.length
  | _ => 1

/-- Termination measure of a streaming-output list: every loop iteration of
`stream_func` either removes an exhausted stream or advances it by one
value, so this strictly decreases. -/
def streamMeasure (l : List RunOutput) : Nat :=
  (l.map streamSize).sum

/-- One pass of the `for output in streaming_outputs` loop (runs.py lines
109-127): a `None` value raises; `__next__` on an exhausted stream raises
`StopIteration`, which removes the output from the list; otherwise the
stream advances and, when the yielded value is not `None`, contributes a
fresh typed output.  Returns (surviving advanced streams, this round's
yielded outputs), both in original order. -/
def advanceRound : List RunOutput → Except PyExc (List RunOutput × List RunOutput)
  | [] => .ok ([], [])
  | ro :: rest =>
      match ro with
      | .mk _ none _ => .error (PyExc.exc "Exception" "Stream value was None")
      | .mk t (some (.inl (.streamV [] _))) _ =>
          -- StopIteration: removed from streaming_outputs
          let _ := t
          advanceRound rest
      | .mk t (some (.inl (.streamV (vo :: vrest) he))) f =>
          match advanceRound rest with
          | .error e => .error e
          | .ok (surv, nexts) =>
              .ok (RunOutput.mk t (some (.inl (.streamV vrest he))) f :: surv,
                   (match vo with
                    | some x => [mkValOut x]
                    | none => []) ++ nexts)
      | .mk _ (some _) _ =>
          .error (PyExc.exc "AttributeError" "object has no attribute __next__")

/-- A response frame: the latest static outputs plus this round's stream
values, carrying the original `inputs` and `error` fields (runs.py lines
132-136). -/
def mkFrame (outs : List RunOutput) (inp : Option (List PyObj))
    (err : Option ContainerRunError) : ContainerRunResult :=
  { outputs := some outs, inputs := inp, error := err }

/-- What `stream_func` produced: the emitted frames in order, the stream
outputs whose backing iterable received an explicit `end()` call on client
disconnect, and the exception that escaped the generator, if any. -/
structure StreamResult where
  frames : List ContainerRunResult
  ended : List RunOutput
  crashed : Option PyExc

/-- `hasattr(output.value.iterable, "end")` guarded by
`output.value is not None` (runs.py lines 143-145). -/
def hasEndAttr : RunOutput → Bool
  | .mk _ (some (.inl (.streamV _ he))) _ => he
  | _ => false

/-- The loop of `stream_func` (runs.py lines 104-147), fuel-indexed to make
the recursion structural; `stream_func` supplies fuel exceeding the measure,
so the fuel-exhaustion branch is never taken.  `disc i` is whether
`request.is_disconnected()` observes a disconnect when checked right after
the i-th emitted frame.  Per iteration: advance every stream (removing the
exhausted ones); if no stream survives, stop without emitting; otherwise
emit a frame of static outputs plus this round's yielded values, then on
disconnect send `end()` into every surviving stream whose iterable has it
and stop. -/
def streamLoopFuel : Nat → List RunOutput → List RunOutput → (Nat → Bool) → Nat →
    Option (List PyObj) → Option ContainerRunError → StreamResult
  | 0, _, _, _, _, _, _ => { frames := [], ended := [], crashed := none }
  | fuel + 1, static, streams, disc, k, inp, err =>
      if streams.isEmpty then { frames := [], ended := [], crashed := none }
      else
        match advanceRound streams with
        | .error e => { frames := [], ended := [], crashed := some e }
        | .ok (survivors, nexts) =>
            if survivors.isEmpty then { frames := [], ended := [], crashed := none }
            else
              let frame := mkFrame (static ++ nexts) inp err
              if disc (k + 1) then
                { frames := [frame], ended := survivors.filter hasEndAttr,
                  crashed := none }
              else
                let rest := streamLoopFuel fuel static survivors disc (k + 1) inp err
                { frames := frame :: rest.frames, ended := rest.ended,
                  crashed := rest.crashed }

/-- `stream_func` (runs.py lines 104-147). -/
def stream_func (static streams : List RunOutput) (disc : Nat → Bool)
    (inp : Option (List PyObj)) (err : Option ContainerRunError) : StreamResult :=
  streamLoopFuel (streamMeasure streams + 1) static streams disc 0 inp err

/-- What the `/runs/stream` endpoint does after the run result is built. -/
inductive StreamRunOutcome where
  | plain (r : ContainerRunResult)
  | typeError (msg : String)
  | streaming (r : StreamResult)

/-- The post-result half of `stream_run` (runs.py lines 89-154): empty or
null outputs return the non-streaming result unchanged; a non-empty output
list without any stream-typed output raises
`TypeError("No streaming outputs found")`; otherwise the outputs are split
into static and streaming and the frame generator runs. -/
def stream_run_dispatch (rs : ContainerRunResult) (disc : Nat → Bool) :
    StreamRunOutcome :=
  let outputs := rs.outputs.getD []
  if outputs.isEmpty then .plain rs
  else if !(outputs.any (fun o => o.type = RunIOType.stream)) then
    .typeError "No streaming outputs found"
  else
    let static := outputs.filter (fun o => ¬ o.type = RunIOType.stream)
    let streams := outputs.filter (fun o => o.type = RunIOType.stream)
    .streaming (stream_func static streams disc rs.inputs rs.error)

/-! ## The Paiplain staged pipeline (src/tests/test_basic_maths.py) -/

/-- Modelled from the spec: a value flowing through the `Paiplain` staged
pipeline (the `Paiplain` class of pipeline/objects is not under src/; only
its test is).  The test's floats are embedded as rationals — every value in
the test (4.0, 2.0 and their products/differences) is exactly representable,
so rational arithmetic is faithful.  A stage returns either a number or a
list of numbers. -/
inductive PaiValue where
  | num (q : ℚ)
  | listV (qs : List ℚ)
deriving DecidableEq, Repr

/-- The argument list a value provides to the next stage: a list result is
splatted into multiple arguments, a number is a single argument. -/
def PaiValue.unpack : PaiValue → List ℚ
  | .num q => [q]
  | .listV qs => qs

/-- Stage `minus(a, b) = a - b` (test_basic_maths.py lines 10-12); `none`
models an argument-count mismatch. -/
def minus : List ℚ → Option PaiValue
  | [a, b] => some (.num (a - b))
  | _ => none

/-- Stage `square(a) = a ** 2` (test_basic_maths.py lines 14-16). -/
def square : List ℚ → Option PaiValue
  | [a] => some (.num (a ^ 2))
  | _ => none

/-- Stage `pair(a) = [a, a]` (test_basic_maths.py lines 18-20). -/
def pair : List ℚ → Option PaiValue
  | [a] => some (.listV [a, a])
  | _ => none

/-- Stage `multiply(a, b) = a * b` (test_basic_maths.py lines 22-24). -/
def multiply : List ℚ → Option PaiValue
  | [a, b] => some (.num (a * b))
  | _ => none

/-- Modelled from the spec: `Paiplain.process` (the class is not under
src/).  Per spec §8/§9 the staged pipeline is a plain sequential transform
chain: the first stage receives the initial inputs, each later stage
receives the previous stage's result (a list splatted into separate
arguments), and the per-stage results are collected in declaration order. -/
def paiplainProcess : List (List ℚ → Option PaiValue) → List ℚ → Option (List PaiValue)
  | [], _ => some []
  | st :: rest, args =>
      match st args with
      | none => none
      | some r =>
          match paiplainProcess rest r.unpack with
          | none => none
          | some rs => some (r :: rs)

/-! ## Admission queue (src/pipeline/container/startup.py `lifespan`) -/

/-- State of the admission queue system: the history of requests in arrival
order, the pending FIFO queue, the executions in flight against the loaded
Graph's Entities, and the completed executions in completion order. -/
structure QueueState where
  arrivals : List ContainerRunCreate
  queued : List ContainerRunCreate
  running : List ContainerRunCreate
  completed : List ContainerRunCreate

/-- Modelled from the spec: the transitions of the admission queue.
`lifespan` (startup.py lines 46-66) creates exactly one `asyncio.Queue` and
exactly one consumer task (`execution_handler`, services/run.py, not under
src/); per spec §4.3/§5 the consumer loop pulls `(request, reply_channel)`
pairs from the FIFO queue and, one at a time, invokes the Executor and
replies.  `enqueue` is a client's `put_nowait` (runs.py line 49);
`startExec` is the single consumer pulling the queue head — only possible
when nothing is in flight, since the one consumer awaits each execution
before pulling again; `finishExec` completes the in-flight execution. -/
inductive QStep : QueueState → QueueState → Prop where
  | enqueue (s : QueueState) (r : ContainerRunCreate) :
      QStep s { s with arrivals := s.arrivals ++ [r], queued := s.queued ++ [r] }
  | startExec (s : QueueState) (r : ContainerRunCreate) (rest : List ContainerRunCreate) :
      s.running = [] → s.queued = r :: rest →
      QStep s { s with queued := rest, running := [r] }
  | finishExec (s : QueueState) (r : ContainerRunCreate) :
      s.running = [r] →
      QStep s { s with running := [], completed := s.completed ++ [r] }

/-- The initial state: empty queue, nothing running. -/
def initQueueState : QueueState :=
  { arrivals := [], queued := [], running := [], completed := [] }

/-- States reachable from the initial state by any interleaving of client
enqueues and the single consumer's steps. -/
inductive QReachable : QueueState → Prop where
  | init : QReachable initQueueState
  | step (s t : QueueState) : QReachable s → QStep s t → QReachable t

/-! ## Theorems -/

theorem pyIndex_of_mem (l : List Variable) (v : Variable) (h : v ∈ l) :
    ∃ i, pyIndex l v = .ok i ∧ l.get? i = some v := by
  induction l with
  | nil => cases h
  | cons y rest ih =>
      by_cases hy : y = v
      · exact ⟨0, by simp [pyIndex, hy], by simp [hy]⟩
      · have hv : v ∈ rest := by
          rcases List.mem_cons.mp h with h1 | h1
          · exact absurd h1.symm hy
          · exact h1
        obtain ⟨i, h1, h2⟩ := ih hv
        exact ⟨i + 1, by simp [pyIndex, hy, h1, Except.map], by simpa using h2⟩

theorem pyIndex_of_not_mem (l : List Variable) (v : Variable) (h : v ∉ l) :
    pyIndex l v = .error (PyExc.exc "ValueError" "x is not in list") := by
  induction l with
  | nil => rfl
  | cons y rest ih =>
      have hy : ¬ y = v := fun hc => h (hc ▸ List.mem_cons_self y rest)
      have hv : v ∉ rest := fun hc => h (List.mem_cons_of_mem y hc)
      simp [pyIndex, hy, ih hv, Except.map]

theorem mem_set_of_get? {α : Type} (l : List α) (i : Nat) (a w : α)
    (h : l.get? i = some w) : a ∈ l.set i a := by
  induction l generalizing i with
  | nil => simp [List.get?] at h
  | cons y rest ih =>
      cases i with
      | zero => simp [List.set]
      | succ j =>
          simp only [List.set]
          exact List.mem_cons_of_mem y (ih j h)

theorem flag_eta (y : Variable) (h : y.is_output = true) :
    ({ y with is_output := true } : Variable) = y := by
  obtain ⟨a, b, c⟩ := y
  simp only at h
  simp [h]

theorem mem_setFirstByLocalId (l : List Variable) (lid : String) (w : Variable)
    (hw : w ∈ l) (hflag : w.is_output = true) : w ∈ setFirstByLocalId l lid := by
  induction l with
  | nil => cases hw
  | cons y rest ih =>
      rcases List.mem_cons.mp hw with h1 | h1
      · subst h1
        by_cases hy : w.local_id = lid
        · simp only [setFirstByLocalId]
          rw [if_pos hy, flag_eta w hflag]
          exact List.mem_cons_self _ _
        · simp only [setFirstByLocalId]
          rw [if_neg hy]
          exact List.mem_cons_self _ _
      · by_cases hy : y.local_id = lid
        · simp only [setFirstByLocalId]
          rw [if_pos hy]
          exact List.mem_cons_of_mem _ h1
        · simp only [setFirstByLocalId]
          rw [if_neg hy]
          exact List.mem_cons_of_mem _ (ih h1)

/-- C6 counterexample: activating a tracing context (`Pipeline.__enter__`)
while another context is already active does not fail at all — at the
concrete state with an active context holding graph "first", entering
"second" succeeds and silently replaces the active graph, so the claim that
it "fails with ContextError" is false at this input. -/
theorem C6_enter_counterexample :
    Pipeline.enter
      { defined_pipelines := [],
        pipeline_context_active := true,
        current_pipeline := some { name := "first", vars := [], functions := [],
                                   nodes := [], outputs := [] } }
      "second"
    = .ok { defined_pipelines := [],
            pipeline_context_active := true,
            current_pipeline := some { name := "second", vars := [], functions := [],
                                       nodes := [], outputs := [] } } := rfl

/-- C6 (amended): entering a `Pipeline` context while another tracing
context is already active never raises `ContextError` (or anything else): it
succeeds unconditionally, replacing the previously active graph with a fresh
empty one; at most one context is active afterwards only because the context
is a single process-wide slot that is overwritten. -/
theorem C6_enter_never_fails (dp : List (String × Graph)) (cur : Option Graph)
    (name : String) :
    Pipeline.enter
      { defined_pipelines := dp, pipeline_context_active := true,
        current_pipeline := cur } name
    = .ok { defined_pipelines := dp, pipeline_context_active := true,
            current_pipeline := some { name := name, vars := [], functions := [],
                                       nodes := [], outputs := [] } } := rfl

/-- C7 counterexample: with no active tracing context, `add_variable` fails
with the plain built-in `Exception` (class "Exception"), not with
`ContextError`, so the claim's stated error type is false at this input. -/
theorem C7_add_variable_counterexample :
    Pipeline.add_variable
      { defined_pipelines := [], pipeline_context_active := false,
        current_pipeline := none }
      { local_id := "a", is_input := false, is_output := false }
    = .error (PyExc.exc "Exception" "Cant add a variable when not defining a pipeline!") := rfl

/-- C7 (amended): each tracing operation that adds to the active graph
(`add_variable`, `add_function`, `add_graph_node`) fails when no tracing
context is active, but with a plain built-in `Exception` carrying the
"Cant add a ... when not defining a pipeline!" message rather than
`ContextError`; no graph is modified (no `.ok` state is produced). -/
theorem C7_add_requires_context (dp : List (String × Graph)) (cur : Option Graph)
    (v : Variable) (f n : String) :
    Pipeline.add_variable
        { defined_pipelines := dp, pipeline_context_active := false,
          current_pipeline := cur } v
      = .error (PyExc.exc "Exception" "Cant add a variable when not defining a pipeline!")
    ∧ Pipeline.add_function
        { defined_pipelines := dp, pipeline_context_active := false,
          current_pipeline := cur } f
      = .error (PyExc.exc "Exception" "Cant add a function when not defining a pipeline!")
    ∧ Pipeline.add_graph_node
        { defined_pipelines := dp, pipeline_context_active := false,
          current_pipeline := cur } n
      = .error (PyExc.exc "Exception" "Cant add a node when not defining a pipeline!") :=
  ⟨rfl, rfl, rfl⟩

/-- C8 counterexample: marking a variable that was never registered on the
graph as an output fails with Python's `ValueError` (raised by
`list.index`), not with `UnknownVariableError`, so the claim's stated error
type is false at this input (graph registering only variable "a", output
request for "b"). -/
theorem C8_mark_output_counterexample :
    Pipeline.markOutput
      { name := "g",
        vars := [{ local_id := "a", is_input := false, is_output := false }],
        functions := [], nodes := [], outputs := [] }
      { local_id := "b", is_input := false, is_output := false }
    = .error (PyExc.exc "ValueError" "x is not in list") := rfl

/-- C8 (amended): for every Variable passed to `Pipeline.output`
(mark_output): if the Variable is registered on the active Graph, the call
succeeds, the registered Variable is flagged `is_output` and appended to
the Graph's `outputs`; if it was never registered, the call fails — but
with the `ValueError` raised by `list.index` (the `!= -1` guard in the
source is dead code), not with `UnknownVariableError`. -/
theorem C8_mark_output_amended (g : Graph) (v : Variable) :
    (v ∈ g.vars →
      ∃ g', Pipeline.markOutput g v = .ok g'
        ∧ ({ v with is_output := true } : Variable) ∈ g'.vars
        ∧ g'.outputs = g.outputs ++ [{ v with is_output := true }])
    ∧ (v ∉ g.vars →
      Pipeline.markOutput g v = .error (PyExc.exc "ValueError" "x is not in list")) := by
  constructor
  · intro hmem
    obtain ⟨i, h1, h2⟩ := pyIndex_of_mem g.vars v hmem
    refine ⟨{ g with
                vars := setFirstByLocalId (g.vars.set i { v with is_output := true }) v.local_id,
                outputs := g.outputs ++ [{ v with is_output := true }] }, ?_, ?_, rfl⟩
    · have h2' : g.vars[i]? = some v := by simpa [List.get?_eq_getElem?] using h2
      simp [Pipeline.markOutput, h1, h2']
    · exact mem_setFirstByLocalId _ _ _
        (mem_set_of_get? g.vars i _ v h2) rfl
  · intro hmem
    simp [Pipeline.markOutput, pyIndex_of_not_mem g.vars v hmem]

theorem advanceRound_nilstreams (he : Bool) (vss : List (List PyObj))
    (h : ∀ vs ∈ vss, vs = ([] : List PyObj)) :
    advanceRound (vss.map (fun vs => mkStreamOut he (vs.map some))) = .ok ([], []) := by
  induction vss with
  | nil => rfl
  | cons vs rest ih =>
      have hv := h vs (List.mem_cons_self _ _)
      subst hv
      simpa [mkStreamOut, advanceRound] using
        ih (fun x hx => h x (List.mem_cons_of_mem _ hx))

theorem advanceRound_consStreams (he : Bool) (vss : List (List PyObj))
    (h : ∀ vs ∈ vss, vs ≠ ([] : List PyObj)) :
    advanceRound (vss.map (fun vs => mkStreamOut he (vs.map some)))
      = .ok (vss.map (fun vs => mkStreamOut he (vs.tail.map some)),
             vss.map (fun vs => mkValOut (vs.head?.getD (PyObj.opaqueV "")))) := by
  induction vss with
  | nil => rfl
  | cons vs rest ih =>
      cases vs with
      | nil => exact absurd rfl (h [] (List.mem_cons_self _ _))
      | cons v vtail =>
          have ih' := ih (fun x hx => h x (List.mem_cons_of_mem _ hx))
          simp only [mkStreamOut, mkValOut] at ih'
          simp only [List.map_cons, mkStreamOut, mkValOut, advanceRound, ih',
            List.tail_cons, List.head?_cons, Option.getD_some, List.singleton_append]

theorem streamMeasure_mkStreams (he : Bool) (vss : List (List PyObj)) :
    streamMeasure (vss.map (fun vs => mkStreamOut he (vs.map some)))
      = (vss.map (fun vs => 1 + vs.length)).sum := by
  induction vss with
  | nil => rfl
  | cons vs rest ih =>
      simp only [List.map_cons, streamMeasure, List.sum_cons] at ih ⊢
      rw [ih]
      simp [streamSize, mkStreamOut]

theorem filter_hasEndAttr_mkStreams {α : Type} (l : List α)
    (g : α → List (Option PyObj)) :
    (l.map (fun a => mkStreamOut true (g a))).filter hasEndAttr
      = l.map (fun a => mkStreamOut true (g a)) := by
  induction l with
  | nil => rfl
  | cons a rest ih => simp [List.filter, hasEndAttr, mkStreamOut, ih]

/-- The frame emitted at (0-indexed) round `j`: the static outputs followed
by each stream's `j`-th value. -/
def frameAt (static : List RunOutput) (inp : Option (List PyObj))
    (err : Option ContainerRunError) (vss : List (List PyObj)) (j : Nat) :
    ContainerRunResult :=
  mkFrame (static ++ vss.map (fun vs => mkValOut (vs[j]?.getD (PyObj.opaqueV "")))) inp err

/-- One full iteration of the `stream_func` loop over non-exhausted streams:
every stream advances, a frame of the static outputs plus the freshly drawn
heads is emitted, and the loop either stops (disconnect observed, all
surviving streams receive `end()`) or continues on the tails. -/
theorem streamLoopFuel_step (f k : Nat) (static : List RunOutput)
    (inp : Option (List PyObj)) (err : Option ContainerRunError)
    (vss : List (List PyObj)) (disc : Nat → Bool)
    (hne : vss ≠ []) (hcons : ∀ vs ∈ vss, vs ≠ ([] : List PyObj)) :
    streamLoopFuel (f + 1) static (vss.map (fun vs => mkStreamOut true (vs.map some)))
        disc k inp err
      = if disc (k + 1) then
          { frames := [mkFrame (static ++
                vss.map (fun vs => mkValOut (vs.head?.getD (PyObj.opaqueV "")))) inp err],
            ended := vss.map (fun vs => mkStreamOut true (vs.tail.map some)),
            crashed := none }
        else
          { frames := mkFrame (static ++
                vss.map (fun vs => mkValOut (vs.head?.getD (PyObj.opaqueV "")))) inp err
              :: (streamLoopFuel f static
                    ((vss.map (fun vs => vs.tail)).map (fun vs => mkStreamOut true (vs.map some)))
                    disc (k + 1) inp err).frames,
            ended := (streamLoopFuel f static
                    ((vss.map (fun vs => vs.tail)).map (fun vs => mkStreamOut true (vs.map some)))
                    disc (k + 1) inp err).ended,
            crashed := (streamLoopFuel f static
                    ((vss.map (fun vs => vs.tail)).map (fun vs => mkStreamOut true (vs.map some)))
                    disc (k + 1) inp err).crashed } := by
  have hmm : (vss.map (fun vs => mkStreamOut true (vs.tail.map some)))
      = ((vss.map (fun vs => vs.tail)).map (fun vs => mkStreamOut true (vs.map some))) := by
    rw [List.map_map]
    rfl
  obtain ⟨vs0, vrest, rfl⟩ := List.exists_cons_of_ne_nil hne
  rw [show streamLoopFuel (f + 1) static
        ((vs0 :: vrest).map (fun vs => mkStreamOut true (vs.map some))) disc k inp err
      = (if ((vs0 :: vrest).map (fun vs => mkStreamOut true (vs.map some))).isEmpty
         then { frames := [], ended := [], crashed := none }
         else
           match advanceRound ((vs0 :: vrest).map (fun vs => mkStreamOut true (vs.map some))) with
           | .error e => { frames := [], ended := [], crashed := some e }
           | .ok (survivors, nexts) =>
               if survivors.isEmpty then { frames := [], ended := [], crashed := none }
               else
                 if disc (k + 1) then
                   { frames := [mkFrame (static ++ nexts) inp err],
                     ended := survivors.filter hasEndAttr, crashed := none }
                 else
                   { frames := mkFrame (static ++ nexts) inp err
                       :: (streamLoopFuel f static survivors disc (k + 1) inp err).frames,
                     ended := (streamLoopFuel f static survivors disc (k + 1) inp err).ended,
                     crashed := (streamLoopFuel f static survivors disc (k + 1) inp err).crashed })
      from rfl]
  rw [advanceRound_consStreams true _ hcons]
  simp only [List.map_cons, List.isEmpty_cons, Bool.false_eq_true, if_false]
  rw [show ((mkStreamOut true (vs0.tail.map some)) :: vrest.map (fun vs => mkStreamOut true (vs.tail.map some)))
      = ((vs0 :: vrest).map (fun vs => mkStreamOut true (vs.tail.map some))) from rfl,
    hmm]
  by_cases hd : disc (k + 1) = true
  · rw [if_pos hd, if_pos hd]
    rw [← hmm]
    rw [show ((vs0 :: vrest).map (fun vs => mkStreamOut true (vs.tail.map some))).filter hasEndAttr
        = ((vs0 :: vrest).map (fun vs => mkStreamOut true (vs.tail.map some)))
      from filter_hasEndAttr_mkStreams (vs0 :: vrest) (fun vs => vs.tail.map some)]
  · rw [if_neg hd, if_neg hd]
    rfl

theorem streamLoopFuel_no_disconnect (static : List RunOutput)
    (inp : Option (List PyObj)) (err : Option ContainerRunError) :
    ∀ (n : Nat) (vss : List (List PyObj)) (fuel k : Nat),
    vss ≠ [] → (∀ vs ∈ vss, vs.length = n) → n + 1 ≤ fuel →
    streamLoopFuel fuel static (vss.map (fun vs => mkStreamOut true (vs.map some)))
        (fun _ => false) k inp err
      = { frames := (List.range n).map (frameAt static inp err vss),
          ended := [], crashed := none } := by
  intro n
  induction n with
  | zero =>
      intro vss fuel k hne hlen hfuel
      obtain ⟨f, rfl⟩ : ∃ f, fuel = f + 1 := ⟨fuel - 1, by omega⟩
      have hnil : ∀ vs ∈ vss, vs = ([] : List PyObj) := fun vs hv =>
        List.length_eq_zero.mp (hlen vs hv)
      obtain ⟨vs0, vrest, rfl⟩ := List.exists_cons_of_ne_nil hne
      rw [show streamLoopFuel (f + 1) static
            ((vs0 :: vrest).map (fun vs => mkStreamOut true (vs.map some)))
            (fun _ => false) k inp err
          = (if ((vs0 :: vrest).map (fun vs => mkStreamOut true (vs.map some))).isEmpty
             then { frames := [], ended := [], crashed := none }
             else
               match advanceRound ((vs0 :: vrest).map (fun vs => mkStreamOut true (vs.map some))) with
               | .error e => { frames := [], ended := [], crashed := some e }
               | .ok (survivors, nexts) =>
                   if survivors.isEmpty then { frames := [], ended := [], crashed := none }
                   else
                     if (fun (_ : Nat) => false) (k + 1) then
                       { frames := [mkFrame (static ++ nexts) inp err],
                         ended := survivors.filter hasEndAttr, crashed := none }
                     else
                       { frames := mkFrame (static ++ nexts) inp err
                           :: (streamLoopFuel f static survivors (fun _ => false) (k + 1) inp err).frames,
                         ended := (streamLoopFuel f static survivors (fun _ => false) (k + 1) inp err).ended,
                         crashed := (streamLoopFuel f static survivors (fun _ => false) (k + 1) inp err).crashed })
          from rfl]
      rw [advanceRound_nilstreams true _ hnil]
      simp [List.range_zero]
  | succ m ih =>
      intro vss fuel k hne hlen hfuel
      obtain ⟨f, rfl⟩ : ∃ f, fuel = f + 1 := ⟨fuel - 1, by omega⟩
      have hcons : ∀ vs ∈ vss, vs ≠ ([] : List PyObj) := by
        intro vs hv hnil
        have hl := hlen vs hv
        rw [hnil] at hl
        simp at hl
      have htne : vss.map (fun vs => vs.tail) ≠ [] := by
        intro hc
        exact hne (List.map_eq_nil_iff.mp hc)
      have htails_len : ∀ vs ∈ vss.map (fun vs => vs.tail), vs.length = m := by
        intro vs hv
        obtain ⟨w, hw, rfl⟩ := List.mem_map.mp hv
        have hl := hlen w hw
        simp [List.length_tail, hl]
      have hrec := ih (vss.map (fun vs => vs.tail)) f (k + 1) htne htails_len (by omega)
      rw [streamLoopFuel_step f k static inp err vss (fun _ => false) hne hcons]
      have hdf : ¬ ((fun (_ : Nat) => false) (k + 1) = true) := by simp
      rw [if_neg hdf, hrec]
      rw [List.range_succ_eq_map, List.map_cons, List.map_map]
      refine congrArg (fun fs => StreamResult.mk fs [] none) ?_
      refine List.cons_eq_cons.mpr ⟨?_, ?_⟩
      · simp only [frameAt, mkFrame]
        refine congrArg (fun l => ContainerRunResult.mk (some (static ++ l)) inp err) ?_
        refine List.map_congr_left ?_
        intro vs hv
        cases vs with
        | nil => exact absurd rfl (hcons [] hv)
        | cons v t => simp
      · refine List.map_congr_left ?_
        intro j hj
        simp only [Function.comp, frameAt, mkFrame]
        refine congrArg (fun l => ContainerRunResult.mk (some (static ++ l)) inp err) ?_
        rw [List.map_map]
        refine List.map_congr_left ?_
        intro vs hv
        cases vs with
        | nil => exact absurd rfl (hcons [] hv)
        | cons v t => simp

theorem streamLoopFuel_disconnect (static : List RunOutput)
    (inp : Option (List PyObj)) (err : Option ContainerRunError) :
    ∀ (d n : Nat) (vss : List (List PyObj)) (fuel k : Nat),
    vss ≠ [] → (∀ vs ∈ vss, vs.length = n) → 1 ≤ d → d ≤ n → d ≤ fuel →
    streamLoopFuel fuel static (vss.map (fun vs => mkStreamOut true (vs.map some)))
        (fun i => i == k + d) k inp err
      = { frames := (List.range d).map (frameAt static inp err vss),
          ended := vss.map (fun vs => mkStreamOut true ((vs.drop d).map some)),
          crashed := none } := by
  intro d
  induction d with
  | zero => intro n vss fuel k hne hlen hd1 hdn hfuel; omega
  | succ e ih =>
      intro n vss fuel k hne hlen hd1 hdn hfuel
      obtain ⟨f, rfl⟩ : ∃ f, fuel = f + 1 := ⟨fuel - 1, by omega⟩
      have hcons : ∀ vs ∈ vss, vs ≠ ([] : List PyObj) := by
        intro vs hv hnil
        have hl := hlen vs hv
        rw [hnil] at hl
        simp at hl
        omega
      cases e with
      | zero =>
          -- disconnect observed right after the first frame
          rw [streamLoopFuel_step f k static inp err vss _ hne hcons]
          rw [if_pos (by simp)]
          congr 1
          · rw [show List.range 1 = [0] from rfl, List.map_cons, List.map_nil]
            refine congrArg (fun x => [x]) ?_
            simp only [frameAt, mkFrame]
            refine congrArg (fun l => ContainerRunResult.mk (some (static ++ l)) inp err) ?_
            refine List.map_congr_left ?_
            intro vs hv
            cases vs with
            | nil => exact absurd rfl (hcons [] hv)
            | cons v t => simp
          · refine List.map_congr_left ?_
            intro vs hv
            cases vs with
            | nil => exact absurd rfl (hcons [] hv)
            | cons v t => simp
      | succ e' =>
          -- not yet the disconnect round: emit and continue on the tails
          obtain ⟨m, rfl⟩ : ∃ m, n = m + 1 := ⟨n - 1, by omega⟩
          have htne : vss.map (fun vs => vs.tail) ≠ [] := by
            intro hc
            exact hne (List.map_eq_nil_iff.mp hc)
          have htails_len : ∀ vs ∈ vss.map (fun vs => vs.tail), vs.length = m := by
            intro vs hv
            obtain ⟨w, hw, rfl⟩ := List.mem_map.mp hv
            have hl := hlen w hw
            simp [List.length_tail, hl]
          rw [streamLoopFuel_step f k static inp err vss _ hne hcons]
          rw [if_neg (by simp only [beq_iff_eq]; omega)]
          rw [show k + (e' + 1 + 1) = (k + 1) + (e' + 1) from by omega]
          have hrec := ih m (vss.map (fun vs => vs.tail)) f (k + 1) htne htails_len
            (by omega) (by omega) (by omega)
          rw [hrec]
          congr 1
          · conv_rhs => rw [List.range_succ_eq_map, List.map_cons, List.map_map]
            refine List.cons_eq_cons.mpr ⟨?_, ?_⟩
            · simp only [frameAt, mkFrame]
              refine congrArg (fun l => ContainerRunResult.mk (some (static ++ l)) inp err) ?_
              refine List.map_congr_left ?_
              intro vs hv
              cases vs with
              | nil => exact absurd rfl (hcons [] hv)
              | cons v t => simp
            · refine List.map_congr_left ?_
              intro j hj
              simp only [Function.comp, frameAt, mkFrame]
              refine congrArg (fun l => ContainerRunResult.mk (some (static ++ l)) inp err) ?_
              rw [List.map_map]
              refine List.map_congr_left ?_
              intro vs hv
              cases vs with
              | nil => exact absurd rfl (hcons [] hv)
              | cons v t => simp
          · rw [List.map_map]
            refine List.map_congr_left ?_
            intro vs hv
            cases vs with
            | nil => exact absurd rfl (hcons [] hv)
            | cons v t => simp [List.drop_succ_cons]

/-- C4 counterexample: two concrete streaming runs refute the claim as
stated.  With one static output and one stream that is exhausted
immediately, `stream_func` emits no frame at all (the frame sequence is
empty, contradicting "non-empty").  With one static output and one stream
holding a single value "v", exactly one frame is emitted and it is
`static ++ [value "v"]` — the final frame carries the stream value rather
than containing only resolved/static outputs, and no terminal static-only
frame follows. -/
theorem C4_stream_frames_counterexample :
    stream_func [RunOutput.mk .scalar (some (.inl (.scalarV "s"))) none]
        [mkStreamOut true []] (fun _ => false) none none
      = { frames := [], ended := [], crashed := none }
  ∧ stream_func [RunOutput.mk .scalar (some (.inl (.scalarV "s"))) none]
        [mkStreamOut true [some (.scalarV "v")]] (fun _ => false) none none
      = { frames := [mkFrame [RunOutput.mk .scalar (some (.inl (.scalarV "s"))) none,
                              mkValOut (.scalarV "v")] none none],
          ended := [], crashed := none } :=
  ⟨rfl, rfl⟩

/-- C4 (amended): for a streaming run over streams of equal length `n`
(every yielded value non-`None`) with an undisturbed client, the emitted
frame sequence is ordered with exactly one frame per advancement round
while at least one stream remains open: `n` frames in total, the `j`-th
consisting of all static outputs followed by each stream's `j`-th value.
No frame is emitted after every stream is exhausted and no terminal
static-only frame is emitted: the sequence is empty when the streams are
empty (`n = 0`), and when `n ≥ 1` its final frame still carries the last
stream values. -/
theorem C4_stream_frames_amended (static : List RunOutput)
    (inp : Option (List PyObj)) (err : Option ContainerRunError)
    (vss : List (List PyObj)) (n : Nat)
    (hne : vss ≠ []) (hlen : ∀ vs ∈ vss, vs.length = n) :
    stream_func static (vss.map (fun vs => mkStreamOut true (vs.map some)))
        (fun _ => false) inp err
      = { frames := (List.range n).map (frameAt static inp err vss),
          ended := [], crashed := none } := by
  have hfuel : n + 1
      ≤ streamMeasure (vss.map (fun vs => mkStreamOut true (vs.map some))) + 1 := by
    rw [streamMeasure_mkStreams]
    obtain ⟨vs0, vrest, rfl⟩ := List.exists_cons_of_ne_nil hne
    have h0 := hlen vs0 (List.mem_cons_self _ _)
    simp only [List.map_cons, List.sum_cons]
    omega
  exact streamLoopFuel_no_disconnect static inp err n vss _ 0 hne hlen hfuel

/-- C4 witness: the amended theorem applied to one stream of two values,
no static outputs: exactly two frames are emitted, frame `j` holding the
stream's `j`-th value, and nothing after exhaustion. -/
theorem C4_stream_frames_witness :
    stream_func [] [mkStreamOut true [some (PyObj.scalarV "a"), some (PyObj.scalarV "b")]]
        (fun _ => false) none none
      = { frames := (List.range 2).map
            (frameAt [] none none [[PyObj.scalarV "a", PyObj.scalarV "b"]]),
          ended := [], crashed := none } :=
  C4_stream_frames_amended [] none none [[PyObj.scalarV "a", PyObj.scalarV "b"]] 2
    (by simp)
    (by intro vs hv
        simp only [List.mem_singleton] at hv
        subst hv
        rfl)

/-- C5: if the client is observed disconnected right after the `d`-th frame
(with streams of equal length `n`, `1 ≤ d ≤ n`, so streams are still open),
then exactly `d` frames are emitted — none after the disconnect is
observed — and every still-open stream handle (all of them, advanced `d`
times) receives the explicit `end()` signal so its backing producer
terminates.  The stream handles are modelled with an `end` attribute as the
spec requires of stream handles. -/
theorem C5_disconnect_ends_streams (static : List RunOutput)
    (inp : Option (List PyObj)) (err : Option ContainerRunError)
    (vss : List (List PyObj)) (n d : Nat)
    (hne : vss ≠ []) (hlen : ∀ vs ∈ vss, vs.length = n)
    (hd1 : 1 ≤ d) (hdn : d ≤ n) :
    stream_func static (vss.map (fun vs => mkStreamOut true (vs.map some)))
        (fun i => i == d) inp err
      = { frames := (List.range d).map (frameAt static inp err vss),
          ended := vss.map (fun vs => mkStreamOut true ((vs.drop d).map some)),
          crashed := none } := by
  have hfuel : d
      ≤ streamMeasure (vss.map (fun vs => mkStreamOut true (vs.map some))) + 1 := by
    rw [streamMeasure_mkStreams]
    obtain ⟨vs0, vrest, rfl⟩ := List.exists_cons_of_ne_nil hne
    have h0 := hlen vs0 (List.mem_cons_self _ _)
    simp only [List.map_cons, List.sum_cons]
    omega
  have h := streamLoopFuel_disconnect static inp err d n vss
    (streamMeasure (vss.map (fun vs => mkStreamOut true (vs.map some))) + 1) 0
    hne hlen hd1 hdn hfuel
  simpa using h

/-- C5 witness: the theorem applied to one stream of two values with the
disconnect observed after the first frame: one frame is emitted, nothing
further, and the still-open stream (one value left) receives `end()`. -/
theorem C5_disconnect_witness :
    stream_func [] [mkStreamOut true [some (PyObj.scalarV "a"), some (PyObj.scalarV "b")]]
        (fun i => i == 1) none none
      = { frames := (List.range 1).map
            (frameAt [] none none [[PyObj.scalarV "a", PyObj.scalarV "b"]]),
          ended := [mkStreamOut true [some (PyObj.scalarV "b")]],
          crashed := none } := by
  have h := C5_disconnect_ends_streams [] none none
    [[PyObj.scalarV "a", PyObj.scalarV "b"]] 2 1
    (by simp)
    (by intro vs hv
        simp only [List.mem_singleton] at hv
        subst hv
        rfl)
    (by omega) (by omega)
  simpa using h

/-- C2: the result mapping of `_generate_run_result`: a `RunInputException`
yields kind `input_error` with the exception's message and no traceback
(status 400); a `RunnableError` yields kind `pipeline_error` carrying the
repr of the original exception and the captured traceback (status 200); any
other exception yields kind `unknown` with just its message and no traceback
(status 500); a non-exception outcome yields a success result with null
error (status 200) whose outputs are classified by runtime shape — each
parsed output's type is its value's `from_object` shape type, except the
list-of-files case, which shape-classifies as opaque (`pkl`) and is emitted
as an `array` of file references. -/
theorem C2_generate_run_result_mapping (msg excRepr tb : String)
    (outs : List PyObj) :
    generate_run_result (.inputException msg)
      = ({ outputs := none, inputs := none,
           error := some { type := .input_error, message := msg,
                           traceback := none } }, 400)
  ∧ generate_run_result (.runnableError excRepr tb)
      = ({ outputs := none, inputs := none,
           error := some { type := .pipeline_error, message := excRepr,
                           traceback := some tb } }, 200)
  ∧ generate_run_result (.otherException msg)
      = ({ outputs := none, inputs := none,
           error := some { type := .unknown, message := msg,
                           traceback := none } }, 500)
  ∧ generate_run_result (.success outs)
      = ({ outputs := some (parse_run_outputs outs), inputs := none,
           error := none }, 200)
  ∧ ∀ o : PyObj,
      (parseOneOutput o).type = RunIOType.from_object o
      ∨ ((parseOneOutput o).type = .array
          ∧ RunIOType.from_object o = .pkl) := by
  refine ⟨rfl, rfl, rfl, rfl, ?_⟩
  intro o
  cases o with
  | listV xs =>
      by_cases h : RunIOType.from_object (.listV xs) = .pkl ∧ xs.all fileLike = true
      · refine Or.inr ⟨?_, h.1⟩
        show (parseOneOutput (.listV xs)).type = .array
        simp only [parseOneOutput]
        rw [if_pos h]
        rfl
      · refine Or.inl ?_
        show (parseOneOutput (.listV xs)).type = RunIOType.from_object (.listV xs)
        simp only [parseOneOutput]
        rw [if_neg h]
        rfl
  | scalarV s => exact Or.inl rfl
  | dictV ks vs => exact Or.inl rfl
  | fileV n sz => exact Or.inl rfl
  | streamV vs he => exact Or.inl rfl
  | opaqueV t => exact Or.inl rfl

/-- C3: a run request submitted while the Manager is not ready is rejected
immediately with the execution queue untouched: `loading` yields a
`pipeline_loading` error with null outputs, a message and no traceback;
`load_failed` and `startup_failed` yield a `startup_error` whose traceback
field carries the diagnostic `pipeline_state_message`; only `ready` lets the
request reach the queue. -/
theorem C3_not_ready_rejected_off_queue (msg : Option String)
    (queue : List ContainerRunCreate) (req : ContainerRunCreate) :
    runEndpoint { pipeline_state := .loading, pipeline_state_message := msg } queue req
      = (.rejected { outputs := none, inputs := none,
                     error := some { type := .pipeline_loading,
                                     message := "Pipeline is still loading",
                                     traceback := none } }, queue)
  ∧ runEndpoint { pipeline_state := .load_failed, pipeline_state_message := msg } queue req
      = (.rejected { outputs := none, inputs := none,
                     error := some { type := .startup_error,
                                     message := "Pipeline failed to load",
                                     traceback := msg } }, queue)
  ∧ runEndpoint { pipeline_state := .startup_failed, pipeline_state_message := msg } queue req
      = (.rejected { outputs := none, inputs := none,
                     error := some { type := .startup_error,
                                     message := "Pipeline failed to startup",
                                     traceback := msg } }, queue)
  ∧ runEndpoint { pipeline_state := .ready, pipeline_state_message := msg } queue req
      = (.enqueued, queue ++ [req]) := by
  refine ⟨?_, ?_, ?_, ?_⟩ <;> rfl

/-- C10: the post-result dispatch of the `/runs/stream` endpoint: a null or
empty output list returns the non-streaming result unchanged, and a
non-empty output list containing no stream-typed output raises
`TypeError("No streaming outputs found")`. -/
theorem C10_stream_run_no_streaming_outputs (rs : ContainerRunResult)
    (disc : Nat → Bool) :
    (rs.outputs = none → stream_run_dispatch rs disc = .plain rs)
  ∧ (rs.outputs = some [] → stream_run_dispatch rs disc = .plain rs)
  ∧ (∀ outs, rs.outputs = some outs → outs ≠ [] →
      (∀ o ∈ outs, ¬ o.type = RunIOType.stream) →
      stream_run_dispatch rs disc = .typeError "No streaming outputs found") := by
  refine ⟨?_, ?_, ?_⟩
  · intro h; simp [stream_run_dispatch, h]
  · intro h; simp [stream_run_dispatch, h]
  · intro outs h hne hnostream
    have hany : outs.any (fun o => o.type = RunIOType.stream) = false := by
      simp only [List.any_eq_false, decide_eq_true_eq]
      intro o ho
      exact hnostream o ho
    have hempty : outs.isEmpty = false := by
      cases outs with
      | nil => exact absurd rfl hne
      | cons a l => rfl
    simp [stream_run_dispatch, h, hempty, hany]

/-- C10 witness: the theorem applied at concrete results — an error result
with null outputs passes through unchanged, a success result with an empty
output list passes through unchanged, and a success result whose single
output is scalar-typed triggers the `TypeError`. -/
theorem C10_stream_run_witness :
    stream_run_dispatch { outputs := none, inputs := none, error := none }
        (fun _ => false)
      = .plain { outputs := none, inputs := none, error := none }
  ∧ stream_run_dispatch { outputs := some [], inputs := none, error := none }
        (fun _ => false)
      = .plain { outputs := some [], inputs := none, error := none }
  ∧ stream_run_dispatch
        { outputs := some [RunOutput.mk .scalar (some (.inl (.scalarV "1"))) none],
          inputs := none, error := none }
        (fun _ => false)
      = .typeError "No streaming outputs found" :=
  ⟨(C10_stream_run_no_streaming_outputs _ _).1 rfl,
   (C10_stream_run_no_streaming_outputs _ _).2.1 rfl,
   (C10_stream_run_no_streaming_outputs _ _).2.2
     [RunOutput.mk .scalar (some (.inl (.scalarV "1"))) none] rfl
     (by simp)
     (by intro o ho
         simp only [List.mem_singleton] at ho
         subst ho
         simp [RunOutput.type])⟩

/-- C8 witness: the amended theorem applied at a concrete graph registering
variable "a": marking "a" succeeds with the flagged variable appended to the
outputs, while marking the unregistered "b" fails with `ValueError`. -/
theorem C8_mark_output_witness :
    (∃ g', Pipeline.markOutput
        { name := "g",
          vars := [{ local_id := "a", is_input := false, is_output := false }],
          functions := [], nodes := [], outputs := [] }
        { local_id := "a", is_input := false, is_output := false } = .ok g'
      ∧ ({ local_id := "a", is_input := false, is_output := true } : Variable) ∈ g'.vars
      ∧ g'.outputs = [{ local_id := "a", is_input := false, is_output := true }])
    ∧ Pipeline.markOutput
        { name := "g",
          vars := [{ local_id := "a", is_input := false, is_output := false }],
          functions := [], nodes := [], outputs := [] }
        { local_id := "b", is_input := false, is_output := false }
      = .error (PyExc.exc "ValueError" "x is not in list") :=
  ⟨(C8_mark_output_amended _ _).1 (by decide),
   (C8_mark_output_amended _ _).2 (by decide)⟩

/-- C9: the four-stage maths pipeline `minus, square, pair, multiply`
processing inputs `(4.0, 2.0)` yields the per-stage results in declaration
order `[2.0, 4.0, [4.0, 4.0], 16.0]`. -/
theorem C9_maths_pipeline_results :
    paiplainProcess [minus, square, pair, multiply] [4, 2]
      = some [.num 2, .num 4, .listV [4, 4], .num 16] := by
  norm_num [paiplainProcess, minus, square, pair, multiply, PaiValue.unpack]

/-- C1: in every state reachable by any interleaving of concurrent client
submissions and the single consumer's steps, at most one execution is in
flight against the loaded Graph's Entities, and the completed executions,
the in-flight execution and the pending queue — in that order — are exactly
the requests in arrival order: executions happen strictly FIFO with no
priority, no preemption and no reordering. -/
theorem C1_single_flight_fifo (s : QueueState) (h : QReachable s) :
    s.running.length ≤ 1
    ∧ s.completed ++ s.running ++ s.queued = s.arrivals := by
  induction h with
  | init => simp [initQueueState]
  | step s t hr hstep ih =>
      cases hstep with
      | enqueue r =>
          refine ⟨ih.1, ?_⟩
          simp only [← List.append_assoc]
          rw [ih.2]
      | startExec r rest h1 h2 =>
          have h2' := ih.2
          rw [h1, h2] at h2'
          simp only [List.append_nil] at h2'
          refine ⟨by simp, ?_⟩
          simpa using h2'
      | finishExec r h1 =>
          have h2' := ih.2
          rw [h1] at h2'
          refine ⟨by simp, ?_⟩
          simpa using h2'

/-- C1 witness: the theorem applied to the state reached by enqueueing one
request, starting it, and finishing it: nothing is in flight and the
completed list equals the arrival list. -/
theorem C1_single_flight_fifo_witness :
    (({ arrivals := [{ run_id := "run-1", req_inputs := [] }], queued := [],
        running := [],
        completed := [{ run_id := "run-1", req_inputs := [] }] } : QueueState)).running.length ≤ 1
    ∧ (({ arrivals := [{ run_id := "run-1", req_inputs := [] }], queued := [],
          running := [],
          completed := [{ run_id := "run-1", req_inputs := [] }] } : QueueState)).completed
        ++ (({ arrivals := [{ run_id := "run-1", req_inputs := [] }], queued := [],
               running := [],
               completed := [{ run_id := "run-1", req_inputs := [] }] } : QueueState)).running
        ++ (({ arrivals := [{ run_id := "run-1", req_inputs := [] }], queued := [],
               running := [],
               completed := [{ run_id := "run-1", req_inputs := [] }] } : QueueState)).queued
      = (({ arrivals := [{ run_id := "run-1", req_inputs := [] }], queued := [],
            running := [],
            completed := [{ run_id := "run-1", req_inputs := [] }] } : QueueState)).arrivals :=
  C1_single_flight_fifo
    { arrivals := [{ run_id := "run-1", req_inputs := [] }], queued := [],
      running := [],
      completed := [{ run_id := "run-1", req_inputs := [] }] }
    (QReachable.step
      { arrivals := [{ run_id := "run-1", req_inputs := [] }], queued := [],
        running := [{ run_id := "run-1", req_inputs := [] }], completed := [] }
      { arrivals := [{ run_id := "run-1", req_inputs := [] }], queued := [],
        running := [],
        completed := [{ run_id := "run-1", req_inputs := [] }] }
      (QReachable.step
        { arrivals := [{ run_id := "run-1", req_inputs := [] }],
          queued := [{ run_id := "run-1", req_inputs := [] }],
          running := [], completed := [] }
        { arrivals := [{ run_id := "run-1", req_inputs := [] }], queued := [],
          running := [{ run_id := "run-1", req_inputs := [] }], completed := [] }
        (QReachable.step initQueueState
          { arrivals := [{ run_id := "run-1", req_inputs := [] }],
            queued := [{ run_id := "run-1", req_inputs := [] }],
            running := [], completed := [] }
          QReachable.init
          (QStep.enqueue initQueueState { run_id := "run-1", req_inputs := [] }))
        (QStep.startExec _ { run_id := "run-1", req_inputs := [] } [] rfl rfl))
      (QStep.finishExec _ { run_id := "run-1", req_inputs := [] } rfl))

end PipelineRepo
